import Mathlib

/-!
# Shallow embedding of the SMY02 Device Control & Scheduling Engine

This file embeds the core of the repository — the controller in
`src/smy02_controller.py` and the hopping / sweep logic of the two GUIs
(`smy02_gui.py`, `qt_gui.py`) — as executable Lean definitions, and proves
the specification's claims about them.

Modelling conventions:
* `instrument is None` is modelled by the Boolean field `connected`
  (`connected = false` iff `self.instrument` is `None`).
* Device status queries (`*ESR?` via `get_esr`) are modelled by an oracle
  `esr : ℕ → Option ℤ`: the n-th status query of an operation returns
  `esr n`; `none` models a query timeout / failure (Python returns `None`).
* Wire traffic is recorded as a `List Wire`: every `write` of a command
  string and every `*ESR?` query, in order.  `sleep` calls have no
  observable effect and are not recorded.
* Python floats entering the sweep generator are modelled as rationals
  (`ℚ`); the `step/10` tolerance of the source absorbs real rounding, and
  no claim depends on bit-level float behaviour.
* Numeric-to-string formatting inside command text (`f"LEVEL {amplitude}"`,
  `%.3E`, …) is rendered with `toString`; no theorem inspects those digits,
  only which commands are sent and how many.
-/

/-- One wire-level exchange with the instrument: a written command line or a
status-register query (`*ESR?`). -/
inductive Wire where
  | write (cmd : String)
  | queryESR
deriving DecidableEq, Repr

/-- ASCII uppercasing of one character (the needle `"SMY02"` is ASCII, so
this captures Python's `str.upper()` for every byte that can matter). -/
def upChar (c : Char) : Char :=
  if c.toNat ≥ 97 ∧ c.toNat ≤ 122 then Char.ofNat (c.toNat - 32) else c

/-- Does the character list start with the given pattern? -/
def startsWithSeq : List Char → List Char → Bool
  | _, [] => true
  | [], _ :: _ => false
  | c :: cs, p :: ps => c == p && startsWithSeq cs ps

/-- Substring occurrence over character lists. -/
def containsSeq : List Char → List Char → Bool
  | [], p => p.isEmpty
  | s@(_ :: rest), p => startsWithSeq s p || containsSeq rest p

/-- Python `"SMY02" in s.upper()`. -/
def containsSMY02 (s : String) : Bool :=
  containsSeq (s.data.map upChar) "SMY02".data

/-- Python `int(x)` on a rational: truncation toward zero. -/
def pyInt (q : ℚ) : ℤ :=
  if 0 ≤ q then ⌊q⌋ else -⌊-q⌋

/-- The mutable state of `SMY02Controller` that the embedded operations
read and update (`self.instrument`, `self.model`, `self.idn`,
`self._fm_initialized`, `self._modulation_mode`). -/
structure CtrlState where
  connected : Bool
  model : String
  idn : String
  fmInitialized : Bool
  modulationMode : Option String
deriving DecidableEq, Repr

/-- `is_smy02 = "SMY02" in (self.model or "").upper() or "SMY02" in (self.idn or "").upper()`. -/
def CtrlState.isSMY02 (st : CtrlState) : Bool :=
  containsSMY02 st.model || containsSMY02 st.idn

/-- `SMY02Controller.get_esr`: `None` when disconnected, otherwise the
oracle's answer to one `*ESR?` query. -/
def get_esr (st : CtrlState) (resp : Option ℤ) : Option ℤ × List Wire :=
  if !st.connected then (none, [])
  else (resp, [Wire.queryESR])

/-- `SMY02Controller.set_frequency` (src/src/smy02_controller.py:77-114):
guard on `instrument`, write `RF <int>`, then either the SMY02 write-only
fast path (unconditional success) or the non-SMY02 ESR check, which
succeeds only on `esr is not None and esr == 0`. -/
def set_frequency (st : CtrlState) (esr : ℕ → Option ℤ) (frequency : ℚ) :
    Bool × List Wire :=
  if !st.connected then (false, [])
  else
    let cmd := "RF " ++ toString (pyInt frequency)
    if st.isSMY02 then (true, [Wire.write cmd])
    else
      match esr 0 with
      | some 0 => (true, [Wire.write cmd, Wire.queryESR])
      | _ => (false, [Wire.write cmd, Wire.queryESR])

/-- `SMY02Controller.set_amplitude` (src/src/smy02_controller.py:116-150):
identical control flow to `set_frequency` with a `LEVEL` command. -/
def set_amplitude (st : CtrlState) (esr : ℕ → Option ℤ) (amplitude : ℚ) :
    Bool × List Wire :=
  if !st.connected then (false, [])
  else
    let cmd := "LEVEL " ++ toString amplitude
    if st.isSMY02 then (true, [Wire.write cmd])
    else
      match esr 0 with
      | some 0 => (true, [Wire.write cmd, Wire.queryESR])
      | _ => (false, [Wire.write cmd, Wire.queryESR])

/-- The candidate loop of `SMY02Controller.enable_output`
(src/src/smy02_controller.py:169-197).  Each iteration clears status,
writes the candidate and queries ESR; results: `None` or `0` → success,
benign SMY02 code (32/53) with `is_smy02` → success, otherwise remember
`last_esr` and try the next candidate.  After exhaustion, `last_esr ∈
{32, 53}` is still accepted (unconditional final check in the source). -/
def enableLoop (smy : Bool) (esr : ℕ → Option ℤ) :
    List String → ℕ → Option ℤ → Bool × List Wire
  | [], _, lastEsr =>
      (lastEsr == some 32 || lastEsr == some 53, [])
  | cmd :: rest, n, _ =>
      let trace := [Wire.write "*CLS", Wire.write cmd, Wire.queryESR]
      match esr n with
      | none => (true, trace)
      | some v =>
          if v = 0 then (true, trace)
          else if smy && (v = 32 || v = 53) then (true, trace)
          else
            let r := enableLoop smy esr rest (n + 1) (some v)
            (r.1, trace ++ r.2)

/-- `SMY02Controller.enable_output` (src/src/smy02_controller.py:152-200):
single strict candidate on SMY02, five aliases otherwise. -/
def enable_output (st : CtrlState) (esr : ℕ → Option ℤ) : Bool × List Wire :=
  if !st.connected then (false, [])
  else
    let candidates :=
      if st.isSMY02 then ["OUTP ON"]
      else ["OUTP ON", "OUTP:STAT ON", "OUTPON", "LEVEL:ON", "RF:ON"]
    enableLoop st.isSMY02 esr candidates 0 none

/-- `SMY02Controller.disable_output` (src/src/smy02_controller.py:202-227):
clear status then write both off-aliases unconditionally; always succeeds
absent a transport fault. -/
def disable_output (st : CtrlState) : Bool × List Wire :=
  if !st.connected then (false, [])
  else
    (true, [Wire.write "*CLS", Wire.write "OUTP OFF", Wire.write "LEVEL:OFF"])

/-- Marker for the Python `f"{float(deviation):.3E}"` formatting of one
non-SMY02 deviation-command variant.  The exact digits are irrelevant to
every theorem — only that the command string is the scientific-notation
variant of the same deviation. -/
def sciFormat (deviation : ℚ) : String :=
  toString deviation ++ "E"

/-- The non-SMY02 deviation-candidate loop of `set_modulation_fm`
(src/src/smy02_controller.py:286-300): clear status, write, query ESR;
`None` or `0` stops with `deviation_set = True`. -/
def fmDevLoop (esr : ℕ → Option ℤ) : List String → ℕ → Bool × List Wire
  | [], _ => (false, [])
  | cmd :: rest, n =>
      let trace := [Wire.write "*CLS", Wire.write cmd, Wire.queryESR]
      match esr n with
      | none => (true, trace)
      | some v =>
          if v = 0 then (true, trace)
          else
            let r := fmDevLoop esr rest (n + 1)
            (r.1, trace ++ r.2)

/-- `SMY02Controller.set_modulation_fm` (src/src/smy02_controller.py:229-315).
SMY02 path: run the three-command tone-source initialization only when
`_fm_initialized` is false; otherwise, when the mode is not already FM,
send the two-command AM→FM switch; always finish with the `FM <int>`
deviation command and set the mode to FM.  Non-SMY02 path: always clear
status, re-send the tone setup, probe the deviation-command variants, then
`FM:ON`. -/
def set_modulation_fm (st : CtrlState) (esr : ℕ → Option ℤ)
    (deviation : ℚ) : Bool × CtrlState × List Wire :=
  if !st.connected then (false, st, [])
  else
    let devCmd := "FM " ++ toString (pyInt deviation)
    if st.isSMY02 then
      let initTrace :=
        if !st.fmInitialized then
          [Wire.write "FM:INT 1.000E+3", Wire.write "AF 1000", Wire.write "FM:ON"]
        else if st.modulationMode != some "FM" then
          [Wire.write "AM:OFF", Wire.write "FM:ON"]
        else []
      (true,
       { st with fmInitialized := true, modulationMode := some "FM" },
       initTrace ++ [Wire.write devCmd])
    else
      let devCmds :=
        [devCmd,
         "FM:DEV " ++ toString (pyInt deviation),
         "FM:DEV " ++ sciFormat deviation,
         "FM:DEVIATION " ++ toString (pyInt deviation),
         "FM:INT:DEV " ++ toString (pyInt deviation)]
      let probe := fmDevLoop esr devCmds 0
      (true,
       { st with modulationMode := some "FM" },
       [Wire.write "*CLS", Wire.write "FM:INT 1.000E+3", Wire.write "AF 1000"]
         ++ probe.2 ++ [Wire.write "FM:ON"])

/-- `SMY02Controller.set_modulation_am` (src/src/smy02_controller.py:317-350):
unconditionally write `FM:OFF` then the AM-enable alias(es), set the mode
to AM, return success.  There is no check of the current mode. -/
def set_modulation_am (st : CtrlState) : Bool × CtrlState × List Wire :=
  if !st.connected then (false, st, [])
  else
    let cmds :=
      if st.isSMY02 then [Wire.write "FM:OFF", Wire.write "AM:ON"]
      else [Wire.write "FM:OFF", Wire.write "AM:ON",
            Wire.write "AM ON", Wire.write "AM:STAT ON"]
    (true, { st with modulationMode := some "AM" }, cmds)

/-- The candidate loop of `SMY02Controller._try_commands_with_check`
(src/src/smy02_controller.py:556-601): clear status, write, query ESR;
`0` → success, nonzero → next candidate, `None` (inconclusive) → assume
success; exhaustion → failure. -/
def tryCommandsLoop (esr : ℕ → Option ℤ) : List String → ℕ → Bool × List Wire
  | [], _ => (false, [])
  | cmd :: rest, n =>
      let trace := [Wire.write "*CLS", Wire.write cmd, Wire.queryESR]
      match esr n with
      | none => (true, trace)
      | some v =>
          if v = 0 then (true, trace)
          else
            let r := tryCommandsLoop esr rest (n + 1)
            (r.1, trace ++ r.2)

/-- `SMY02Controller._try_commands_with_check` with its `instrument` guard. -/
def try_commands_with_check (st : CtrlState) (esr : ℕ → Option ℤ)
    (commands : List String) : Bool × List Wire :=
  if !st.connected then (false, [])
  else tryCommandsLoop esr commands 0

/-! ## Playlist model and sweep generator

Shared by `SMY02GUI._generate_sweep_playlist` (smy02_gui.py:790-853) and
`SMY02QtGUI._generate_sweep_playlist` (qt_gui.py:511-564); the two loops
are identical except for the display-name text, which no theorem inspects.
The ping-pong extension (qt_gui.py:554-558) exists only in the Qt GUI. -/

/-- One playlist entry: `{name, frequency (MHz), level (dBm), bandwidth}`. -/
structure Entry where
  name : String
  frequency : ℚ
  level : ℚ
  bandwidth : String
deriving DecidableEq, Repr, Inhabited

/-- Python `round(current, 6)` — rounding to six decimal places.  (Python
rounds half to even on floats; the difference can only show on exact
half-microhertz ties and no theorem depends on the tie direction.) -/
def round6 (q : ℚ) : ℚ :=
  (round (q * 1000000) : ℤ) / 1000000

/-- Level of sweep point `idx`: `alt_level` when alternation is enabled and
`(idx // toggle_every) % 2 == 1`, else `base_level`. -/
def sweepLevel (altEnabled : Bool) (altLevel baseLevel : ℚ)
    (toggleEvery : ℕ) (idx : ℕ) : ℚ :=
  if altEnabled then
    if (idx / toggleEvery) % 2 = 1 then altLevel else baseLevel
  else baseLevel

/-- The entry appended by one iteration of the sweep loop body. -/
def sweepEntry (altEnabled : Bool) (altLevel baseLevel : ℚ)
    (toggleEvery : ℕ) (bw : String) (idx : ℕ) (current : ℚ) : Entry :=
  let level := sweepLevel altEnabled altLevel baseLevel toggleEvery idx
  let freq := round6 current
  { name := "Sweep " ++ toString freq ++ " MHz @ " ++ toString level ++ " dBm"
    frequency := freq
    level := level
    bandwidth := bw }

/-- The sweep `while` loop, made structural on a fuel argument.  The fuel is
an upper bound on the number of iterations of the source's loop (the caller
passes the exact trip count, proved exact in `sweepLoopF_eq_map`); the loop
itself tests `current <= stop + eps` (ascending) or `current >= stop - eps`
(descending) and steps `current` by `±step` as in the source. -/
def sweepLoopF (ascending : Bool) (stop step eps : ℚ) (altEnabled : Bool)
    (altLevel baseLevel : ℚ) (toggleEvery : ℕ) (bw : String) :
    ℕ → ℕ → ℚ → List Entry
  | 0, _, _ => []
  | fuel + 1, idx, current =>
      if (if ascending then current ≤ stop + eps else stop - eps ≤ current) then
        sweepEntry altEnabled altLevel baseLevel toggleEvery bw idx current ::
          sweepLoopF ascending stop step eps altEnabled altLevel baseLevel
            toggleEvery bw fuel (idx + 1)
            (if ascending then current + step else current - step)
      else []

/-- Exact trip count of the sweep loop started at `current`, used as fuel. -/
def sweepFuel (ascending : Bool) (stop step eps current : ℚ) : ℕ :=
  (⌊(if ascending then stop + eps - current else current - (stop - eps)) / step⌋
    + 1).toNat

/-- Forward-sweep generation
(`_generate_sweep_playlist` up to the ping-pong / replace steps):
`none` models the synchronous parameter errors (`step <= 0`,
`toggle_every < 1`) and the empty-result warning — all reported before any
device interaction. -/
def generateSweepForward (start stop step baseLevel altLevel : ℚ)
    (altEnabled : Bool) (toggleEvery : ℕ) (bw : String) :
    Option (List Entry) :=
  if 0 < step then
    if toggleEvery < 1 then none
    else
      let ascending := decide (start ≤ stop)
      let eps := step / 10
      let forward :=
        sweepLoopF ascending stop step eps altEnabled altLevel baseLevel
          toggleEvery bw (sweepFuel ascending stop step eps start) 0 start
      if forward = [] then none else some forward
  else none

/-- The ping-pong extension (qt_gui.py:554-558): when enabled and the
forward list has more than two points, append the reverse of the interior
points `forward[1:-1]`. -/
def applyPingPong (pingPong : Bool) (forward : List Entry) : List Entry :=
  if pingPong && decide (2 < forward.length) then
    forward ++ ((forward.drop 1).dropLast).reverse
  else forward

/-- Replace-or-append of the generated entries into the live playlist
(qt_gui.py:560-563). -/
def applyReplace (replaceExisting : Bool) (playlist entries : List Entry) :
    List Entry :=
  if replaceExisting then entries else playlist ++ entries

/-- Full sweep generation as one function of the spec's `SweepSpec` fields. -/
def generate_sweep_playlist (start stop step baseLevel altLevel : ℚ)
    (altEnabled : Bool) (toggleEvery : ℕ) (bw : String)
    (pingPong replaceExisting : Bool) (playlist : List Entry) :
    Option (List Entry) :=
  (generateSweepForward start stop step baseLevel altLevel altEnabled
      toggleEvery bw).map
    fun forward => applyReplace replaceExisting playlist (applyPingPong pingPong forward)

/-! ## Hopping scheduler — threaded GUI (`smy02_gui.py`)

The worker (`SMY02GUI._hopping_worker`, smy02_gui.py:902-971) reads the
frozen `active_hop_playlist` snapshot taken by `_start_hopping`
(smy02_gui.py:855-879).  Controller call results are abstracted by a
per-cycle `DevResults` record — the worker's control flow depends only on
the Booleans the controller returns. -/

/-- Results of the controller calls one hopping cycle can make. -/
structure DevResults where
  setFreqOk : Bool
  setLevelOk : Bool
  applyBwOk : Bool
  enableOk : Bool
deriving DecidableEq, Repr

/-- Device-affecting actions a GUI hopping cycle issues, in order. -/
inductive DevCmd where
  | setFreq (hz : ℤ)
  | setAmp (dbm : ℚ)
  | setFM (deviation : ℤ)
  | autoModFor (freqMHz : ℚ)
  | enableOut
deriving DecidableEq, Repr

/-- GUI state of `SMY02GUI` touched by start/stop/worker. -/
structure TkGui where
  connected : Bool
  playlist : List Entry
  activeHopPlaylist : Option (List Entry)
  playlistRunning : Bool
  currentPlaylistIndex : ℕ
  transmitting : Bool
deriving DecidableEq, Repr

/-- `SMY02GUI._start_hopping` (smy02_gui.py:855-879): reject when
disconnected, when the playlist is empty, or when already running —
each rejection leaves the state unchanged and launches no worker
(second component `false`).  Otherwise deep-copy the live playlist into
`active_hop_playlist`, reset the index, set `playlist_running` and launch
the worker thread (`true`).  The start call itself performs no device
I/O; only the launched worker does. -/
def tk_start_hopping (g : TkGui) : TkGui × Bool :=
  if !g.connected then (g, false)
  else if g.playlist = [] then (g, false)
  else if g.playlistRunning then (g, false)
  else
    ({ g with
        activeHopPlaylist := some g.playlist
        playlistRunning := true
        currentPlaylistIndex := 0 }, true)

/-- Per-cycle worker-local and shared state of `_hopping_worker`:
`self.current_playlist_index`, the local `last_bw` and `rf_enable_failed`,
and the shared `self.transmitting`. -/
structure WorkerSt where
  index : ℕ
  lastBw : Option String
  rfEnableFailed : Bool
  transmitting : Bool
deriving DecidableEq, Repr

/-- Observable outcome of one worker cycle. -/
structure CycleOut where
  applied : Option Entry
  cmds : List DevCmd
  enableAttempted : Bool
  continued : Bool
deriving DecidableEq, Repr

/-- smy02_gui.py:38-42 / qt_gui.py:45-49: fixed bandwidth → FM-deviation table. -/
def BANDWIDTHS (bw : String) : Option ℤ :=
  if bw = "6.25 kHz" then some 3125
  else if bw = "12.5 kHz" then some 6250
  else if bw = "25 kHz" then some 12500
  else none

/-- One iteration of the `while self.playlist_running` body of
`SMY02GUI._hopping_worker` (smy02_gui.py:911-961), reading only the
frozen `snapshot`: apply frequency and level (a failure of either breaks
the loop); apply bandwidth only when it differs from the previous cycle's;
attempt output enable only while `not transmitting and not
rf_enable_failed`, latching `rf_enable_failed` on the first failure; then
dwell and advance the index modulo the snapshot length. -/
def tk_cycle (snapshot : List Entry) (res : DevResults) (st : WorkerSt) :
    WorkerSt × CycleOut :=
  let entry := snapshot.getD st.index default
  let freqCmd := DevCmd.setFreq (pyInt (entry.frequency * 1000000))
  if !res.setFreqOk then
    (st, ⟨some entry, [freqCmd], false, false⟩)
  else if !res.setLevelOk then
    (st, ⟨some entry, [freqCmd, DevCmd.setAmp entry.level], false, false⟩)
  else
    let bwCmds :=
      if some entry.bandwidth != st.lastBw then
        [DevCmd.setFM ((BANDWIDTHS entry.bandwidth).getD 6250)]
      else []
    let lastBw' :=
      if some entry.bandwidth != st.lastBw then some entry.bandwidth
      else st.lastBw
    let attempt := !st.transmitting && !st.rfEnableFailed
    let enCmds := if attempt then [DevCmd.enableOut] else []
    let rfFailed' := if attempt && !res.enableOk then true else st.rfEnableFailed
    let transmitting' := if attempt && res.enableOk then true else st.transmitting
    ({ index := (st.index + 1) % snapshot.length
       lastBw := lastBw'
       rfEnableFailed := rfFailed'
       transmitting := transmitting' },
     ⟨some entry,
      [freqCmd, DevCmd.setAmp entry.level] ++ bwCmds ++ enCmds,
      attempt, true⟩)

/-- `n` cycles of the worker loop from worker state `st`, with `running k`
the value the shared `playlist_running` flag has when cycle `k` tests it
and `res k` that cycle's controller results.  The loop exits when the flag
is cleared, when the snapshot is empty, or when a cycle reports a
frequency/level failure (the source's `break`). -/
def tk_run (snapshot : List Entry) (res : ℕ → DevResults)
    (running : ℕ → Bool) : ℕ → ℕ → WorkerSt → List CycleOut
  | 0, _, _ => []
  | n + 1, k, st =>
      if !running k then []
      else if snapshot = [] then []
      else
        let (st', out) := tk_cycle snapshot (res k) st
        if out.continued then out :: tk_run snapshot res running n (k + 1) st'
        else [out]

/-- The cycle outcomes a freshly started worker produces: snapshot
`self.active_hop_playlist or []`, index from the GUI state, local flags
reset, shared `transmitting` read from the GUI state
(smy02_gui.py:908-910). -/
def tk_session_outs (g : TkGui) (res : ℕ → DevResults)
    (running : ℕ → Bool) (n : ℕ) : List CycleOut :=
  tk_run (g.activeHopPlaylist.getD []) res running n 0
    ⟨g.currentPlaylistIndex, none, false, g.transmitting⟩

/-- A live-playlist edit (add / remove / reorder / clear): only
`self.playlist` changes. -/
def editLivePlaylist (g : TkGui) (p : List Entry) : TkGui :=
  { g with playlist := p }

/-! ## Hopping scheduler — Qt GUI (`qt_gui.py`) -/

/-- GUI state of `SMY02QtGUI` touched by start/stop/hop. -/
structure QtGui where
  connected : Bool
  controller : Bool
  playlist : List Entry
  playlistRunning : Bool
  currentIdx : ℕ
  hopLastBw : Option String
  transmitting : Bool
  autoMod : Bool
deriving DecidableEq, Repr

/-- `SMY02QtGUI._hop_once` (qt_gui.py:592-624): NOTE — it indexes
`self.playlist`, the **live** playlist, not a snapshot (a live list shorter
than `current_idx` would raise `IndexError` in the source; `getD` models
the in-range accesses every theorem uses).  Bandwidth falls back to
`"12.5 kHz"` when unknown; with auto-modulation the per-frequency
modulation routine runs and `_hop_last_bw` resets; output enable is
attempted whenever `not self.transmitting`, with **no** failure latch;
the index advances modulo the live playlist's length. -/
def qt_hop_once (g : QtGui) (res : DevResults) : QtGui × CycleOut :=
  if !g.playlistRunning || !g.controller || g.playlist = [] then
    (g, ⟨none, [], false, false⟩)
  else
    let e := g.playlist.getD g.currentIdx default
    let bw := if (BANDWIDTHS e.bandwidth).isSome then e.bandwidth else "12.5 kHz"
    let freqCmd := DevCmd.setFreq (pyInt (e.frequency * 1000000))
    let modCmds :=
      if g.autoMod then [DevCmd.autoModFor e.frequency]
      else if some bw != g.hopLastBw then
        [DevCmd.setFM ((BANDWIDTHS bw).getD 6250)]
      else []
    let hopLastBw' :=
      if g.autoMod then none
      else if some bw != g.hopLastBw then some bw
      else g.hopLastBw
    let attempt := !g.transmitting
    let enCmds := if attempt then [DevCmd.enableOut] else []
    let transmitting' := if attempt && res.enableOk then true else g.transmitting
    ({ g with
        hopLastBw := hopLastBw'
        transmitting := transmitting'
        currentIdx := (g.currentIdx + 1) % g.playlist.length },
     ⟨some e, [freqCmd, DevCmd.setAmp e.level] ++ modCmds ++ enCmds,
      attempt, true⟩)

/-- `SMY02QtGUI._start_hopping` (qt_gui.py:566-581): reject when
disconnected / no controller, when the playlist is empty (warning, no
device I/O), or when already running; otherwise set the running flag,
reset the index and `_hop_last_bw`, start the dwell timer and immediately
run one `_hop_once` (whose commands are the start call's only device
I/O). -/
def qt_start_hopping (g : QtGui) (res : DevResults) :
    QtGui × List DevCmd × Bool :=
  if !g.connected || !g.controller then (g, [], false)
  else if g.playlist = [] then (g, [], false)
  else if g.playlistRunning then (g, [], false)
  else
    let g1 := { g with playlistRunning := true, currentIdx := 0, hopLastBw := none }
    let (g2, out) := qt_hop_once g1 res
    (g2, out.cmds, true)

/-! ## Helper lemmas -/

lemma sweepLoopF_eq_map (stop step eps : ℚ) (hstep : 0 < step)
    (altE : Bool) (altL baseL : ℚ) (tog : ℕ) (bw : String) :
    ∀ fuel idx current,
      (⌊(stop + eps - current) / step⌋ + 1).toNat ≤ fuel →
      sweepLoopF true stop step eps altE altL baseL tog bw fuel idx current
        = (List.range (⌊(stop + eps - current) / step⌋ + 1).toNat).map
            (fun i => sweepEntry altE altL baseL tog bw (idx + i) (current + i * step)) := by
  intro fuel
  induction fuel with
  | zero =>
      intro idx current hle
      have h0 : (⌊(stop + eps - current) / step⌋ + 1).toNat = 0 := Nat.le_zero.mp hle
      simp [sweepLoopF, h0]
  | succ fuel ih =>
      intro idx current hle
      by_cases h : current ≤ stop + eps
      · have hd : (0 : ℚ) ≤ (stop + eps - current) / step :=
          div_nonneg (by linarith) (le_of_lt hstep)
        have hf : 0 ≤ ⌊(stop + eps - current) / step⌋ := Int.floor_nonneg.mpr hd
        have hsub : ⌊(stop + eps - (current + step)) / step⌋
            = ⌊(stop + eps - current) / step⌋ - 1 := by
          have heq : (stop + eps - (current + step)) / step
              = (stop + eps - current) / step - 1 := by
            field_simp
            ring
          rw [heq, show ((1 : ℚ)) = ((1 : ℤ) : ℚ) by norm_num, Int.floor_sub_int]
        have htn : (⌊(stop + eps - current) / step⌋ + 1).toNat
            = (⌊(stop + eps - (current + step)) / step⌋ + 1).toNat + 1 := by
          rw [hsub]; omega
        have hle' : (⌊(stop + eps - (current + step)) / step⌋ + 1).toNat ≤ fuel := by
          omega
        have hcons : sweepLoopF true stop step eps altE altL baseL tog bw (fuel + 1) idx current
            = sweepEntry altE altL baseL tog bw idx current ::
              sweepLoopF true stop step eps altE altL baseL tog bw fuel (idx + 1) (current + step) := by
          rw [sweepLoopF]
          simp [h]
        rw [hcons, ih (idx + 1) (current + step) hle', htn, List.range_succ_eq_map,
          List.map_cons, List.map_map]
        congr 1
        · simp
        · apply List.map_congr_left
          intro i _
          show sweepEntry altE altL baseL tog bw (idx + 1 + i) (current + step + i * step)
              = sweepEntry altE altL baseL tog bw (idx + (i + 1)) (current + ((i + 1 : ℕ)) * step)
          congr 1
          · omega
          · push_cast
            ring
      · have hd : (stop + eps - current) / step < 0 :=
          div_neg_of_neg_of_pos (by linarith) hstep
        have hf : ⌊(stop + eps - current) / step⌋ < 0 := by
          have := Int.floor_lt.mpr (show (stop + eps - current) / step < ((0 : ℤ) : ℚ) by exact_mod_cast hd)
          simpa using this
        have h0 : (⌊(stop + eps - current) / step⌋ + 1).toNat = 0 := by omega
        rw [sweepLoopF, h0]
        simp [h]

lemma generateSweepForward_eq (start stop step baseL altL : ℚ) (altE : Bool)
    (tog : ℕ) (bw : String) (hstep : 0 < step) (hasc : start ≤ stop)
    (htog : 1 ≤ tog) :
    generateSweepForward start stop step baseL altL altE tog bw
      = some ((List.range (⌊(stop - start + step / 10) / step⌋ + 1).toNat).map
          (fun i => sweepEntry altE altL baseL tog bw (0 + i) (start + i * step))) := by
  have hdec : decide (start ≤ stop) = true := decide_eq_true hasc
  have hc0 : 0 ≤ ⌊(stop + step / 10 - start) / step⌋ :=
    Int.floor_nonneg.mpr (div_nonneg (by linarith) hstep.le)
  simp only [generateSweepForward, sweepFuel, hdec, if_true]
  rw [if_pos hstep, if_neg (show ¬ tog < 1 by omega)]
  rw [sweepLoopF_eq_map stop step (step / 10) hstep altE altL baseL tog bw _ 0 start
    (le_refl _)]
  rw [if_neg (by simp [List.range_eq_nil]; omega)]
  rw [show stop + step / 10 - start = stop - start + step / 10 from by ring]

/-- Claim C5 (amended): for every ascending sweep with `step > 0` the
forward list has exactly `⌊(stop - start + ε)/step⌋ + 1` entries with
`ε = step/10` (the tolerance is added to the span before dividing, exactly
as the source's loop bound `current ≤ stop + eps` does); the first entry's
frequency is `start` (up to 6-decimal rounding); and whenever `stop - start`
is an integer multiple of `step`, the last entry's frequency is `stop`
(up to rounding). -/
theorem sweep_forward_spec (start stop step baseL altL : ℚ) (altE : Bool)
    (tog : ℕ) (bw : String) (hstep : 0 < step) (hasc : start ≤ stop)
    (htog : 1 ≤ tog) :
    (generateSweepForward start stop step baseL altL altE tog bw).map List.length
        = some (⌊(stop - start + step / 10) / step⌋ + 1).toNat ∧
    ((generateSweepForward start stop step baseL altL altE tog bw).bind
        List.head?).map Entry.frequency = some (round6 start) ∧
    ∀ k : ℕ, stop - start = k * step →
      ((generateSweepForward start stop step baseL altL altE tog bw).bind
          List.getLast?).map Entry.frequency = some (round6 stop) := by
  have hfw := generateSweepForward_eq start stop step baseL altL altE tog bw hstep hasc htog
  have hc0 : 0 ≤ ⌊(stop - start + step / 10) / step⌋ :=
    Int.floor_nonneg.mpr (div_nonneg (by linarith) hstep.le)
  refine ⟨?_, ?_, ?_⟩
  · rw [hfw]; simp
  · rw [hfw]
    obtain ⟨n, hn⟩ : ∃ n, (⌊(stop - start + step / 10) / step⌋ + 1).toNat = n + 1 :=
      ⟨⌊(stop - start + step / 10) / step⌋.toNat, by omega⟩
    rw [hn, List.range_succ_eq_map]
    simp [sweepEntry]
  · intro k hk
    have hquot : (stop - start + step / 10) / step = (k : ℚ) + 1 / 10 := by
      rw [hk]; field_simp; ring
    have hfl : ⌊(stop - start + step / 10) / step⌋ = (k : ℤ) := by
      rw [hquot, show ((k : ℚ) + 1 / 10) = ((k : ℤ) : ℚ) + 1 / 10 by push_cast; ring,
        Int.floor_int_add, show ⌊(1 / 10 : ℚ)⌋ = 0 by norm_num]
      omega
    have hcount : (⌊(stop - start + step / 10) / step⌋ + 1).toNat = k + 1 := by
      rw [hfl]; omega
    rw [hfw, hcount]
    rw [List.range_succ]
    simp only [List.map_append, List.map_cons, List.map_nil, Option.bind_some]
    have hlast : start + (k : ℚ) * step = stop := by linarith
    simp [List.getLast?_concat, sweepEntry, hlast]

/-- Claim C5 counterexample: at `start = 0`, `stop = 8`, `step = 5` the
generated forward list is `[0, 5]` — 2 entries — while the claim's literal
formula `⌊(stop - start)/step + ε⌋ + 1` with `ε = step/10` gives 3, and the
last entry is `5`, not `stop = 8` (no rounding can bridge that), so the
boundary value is not always included. -/
theorem sweep_formula_cex :
    (generateSweepForward 0 8 5 0 0 false 1 "12.5 kHz").map List.length = some 2 ∧
    (⌊((8 : ℚ) - 0) / 5 + 5 / 10⌋ + 1).toNat = 3 ∧
    ((generateSweepForward 0 8 5 0 0 false 1 "12.5 kHz").bind
        List.getLast?).map Entry.frequency = some 5 ∧
    (5 : ℚ) ≠ 8 := by
  have hfw := generateSweepForward_eq 0 8 5 0 0 false 1 "12.5 kHz" (by norm_num)
    (by norm_num) (le_refl 1)
  have hfl : ⌊((8 : ℚ) - 0 + 5 / 10) / 5⌋ = 1 := by norm_num
  rw [hfl] at hfw
  have hr : (List.range ((1 : ℤ) + 1).toNat) = [0, 1] := by decide
  rw [hr] at hfw
  refine ⟨?_, by norm_num; rfl, ?_, by norm_num⟩
  · rw [hfw]; simp
  · rw [hfw]
    simp only [List.map_cons, List.map_nil, Option.bind_some]
    norm_num [List.getLast?, sweepEntry, round6, round_eq]

/-- Claim C5 witness: the amended theorem evaluated at the spec's scenario
`start = 108, stop = 111, step = 1`: 4 entries, first 108, last 111. -/
theorem sweep_forward_spec_witness :
    (generateSweepForward 108 111 1 0 0 false 1 "12.5 kHz").map List.length = some 4 ∧
    ((generateSweepForward 108 111 1 0 0 false 1 "12.5 kHz").bind
        List.head?).map Entry.frequency = some (round6 108) ∧
    ((generateSweepForward 108 111 1 0 0 false 1 "12.5 kHz").bind
        List.getLast?).map Entry.frequency = some (round6 111) := by
  have h := sweep_forward_spec 108 111 1 0 0 false 1 "12.5 kHz" (by norm_num)
    (by norm_num) (le_refl 1)
  refine ⟨?_, h.2.1, h.2.2 3 (by norm_num)⟩
  rw [h.1]
  norm_num
  rfl

/-- Claim C6: with `pingPong` enabled and a forward list of `n > 2` points,
the produced playlist is the forward list followed by the reverse of its
interior points (`forward[1:-1]`), of total length `2n - 2`; with `n ≤ 2`
the forward list is returned unchanged. -/
theorem pingPong_spec (forward : List Entry) :
    (2 < forward.length →
      applyPingPong true forward
          = forward ++ ((forward.drop 1).dropLast).reverse ∧
      (applyPingPong true forward).length = 2 * forward.length - 2) ∧
    (forward.length ≤ 2 → applyPingPong true forward = forward) := by
  constructor
  · intro h
    have hif : applyPingPong true forward
        = forward ++ ((forward.drop 1).dropLast).reverse := by
      unfold applyPingPong
      rw [if_pos]
      simp [h]
    refine ⟨hif, ?_⟩
    rw [hif]
    simp [List.length_dropLast, List.length_drop]
    omega
  · intro h
    unfold applyPingPong
    rw [if_neg]
    simp
    omega

/-- Claim C6 witness: the ping-pong theorem evaluated on the spec's
four-point example `108..111`, giving the 6-entry list
`[108, 109, 110, 111, 110, 109]`. -/
theorem pingPong_spec_witness :
    applyPingPong true
        [⟨"a", 108, 0, "12.5 kHz"⟩, ⟨"b", 109, 0, "12.5 kHz"⟩,
         ⟨"c", 110, 0, "12.5 kHz"⟩, ⟨"d", 111, 0, "12.5 kHz"⟩]
      = [⟨"a", 108, 0, "12.5 kHz"⟩, ⟨"b", 109, 0, "12.5 kHz"⟩,
         ⟨"c", 110, 0, "12.5 kHz"⟩, ⟨"d", 111, 0, "12.5 kHz"⟩]
        ++ (([⟨"a", 108, 0, "12.5 kHz"⟩, ⟨"b", 109, 0, "12.5 kHz"⟩,
              ⟨"c", 110, 0, "12.5 kHz"⟩, ⟨"d", 111, 0, "12.5 kHz"⟩].drop 1).dropLast).reverse ∧
    (applyPingPong true
        [⟨"a", 108, 0, "12.5 kHz"⟩, ⟨"b", 109, 0, "12.5 kHz"⟩,
         ⟨"c", 110, 0, "12.5 kHz"⟩, ⟨"d", 111, 0, "12.5 kHz"⟩]).length
      = 2 * ([⟨"a", 108, 0, "12.5 kHz"⟩, ⟨"b", 109, 0, "12.5 kHz"⟩,
              ⟨"c", 110, 0, "12.5 kHz"⟩, ⟨"d", 111, 0, "12.5 kHz"⟩] : List Entry).length - 2 :=
  (pingPong_spec _).1 (by decide)

/-- Claim C2 (amended): for the threaded GUI (`smy02_gui.py`), starting a
hopping session freezes `active_hop_playlist` as a copy of the live
playlist, and the worker's cycle outcomes are invariant under any
subsequent edit of the live playlist — the applied sequence is determined
solely by the snapshot.  (The Qt GUI has no snapshot; see the
counterexample.) -/
theorem tk_snapshot_isolation (g0 : TkGui) (p' : List Entry)
    (res : ℕ → DevResults) (running : ℕ → Bool) (n : ℕ)
    (h1 : g0.connected = true) (h2 : g0.playlist ≠ [])
    (h3 : g0.playlistRunning = false) :
    (tk_start_hopping g0).2 = true ∧
    (tk_start_hopping g0).1.activeHopPlaylist = some g0.playlist ∧
    tk_session_outs (editLivePlaylist (tk_start_hopping g0).1 p') res running n
      = tk_session_outs (tk_start_hopping g0).1 res running n := by
  have hstart : tk_start_hopping g0 =
      (⟨g0.connected, g0.playlist, some g0.playlist, true, 0, g0.transmitting⟩, true) := by
    unfold tk_start_hopping
    rw [h1, h3]
    simp [h2]
  rw [hstart]
  refine ⟨rfl, rfl, ?_⟩
  simp [tk_session_outs, editLivePlaylist]

/-- Claim C2 witness: snapshot isolation instantiated on a one-entry
playlist, with the live playlist replaced by a different entry after start
and a three-cycle run. -/
theorem tk_snapshot_isolation_witness :
    (tk_start_hopping ⟨true, [⟨"a", 100, 0, "12.5 kHz"⟩], none, false, 0, false⟩).2 = true ∧
    (tk_start_hopping ⟨true, [⟨"a", 100, 0, "12.5 kHz"⟩], none, false, 0, false⟩).1.activeHopPlaylist
      = some [⟨"a", 100, 0, "12.5 kHz"⟩] ∧
    tk_session_outs
        (editLivePlaylist
          (tk_start_hopping ⟨true, [⟨"a", 100, 0, "12.5 kHz"⟩], none, false, 0, false⟩).1
          [⟨"b", 200, 0, "25 kHz"⟩])
        (fun _ => ⟨true, true, true, true⟩) (fun _ => true) 3
      = tk_session_outs
          (tk_start_hopping ⟨true, [⟨"a", 100, 0, "12.5 kHz"⟩], none, false, 0, false⟩).1
          (fun _ => ⟨true, true, true, true⟩) (fun _ => true) 3 :=
  tk_snapshot_isolation _ _ _ _ 3 rfl (by decide) rfl

/-- Claim C2 counterexample: `SMY02QtGUI._hop_once` indexes the live
playlist, so a running session whose live playlist is mutated from
`[a]` to `[b]` applies `b` on the next tick instead of `a` — the mutation
changes which entry the loop applies. -/
theorem qt_live_playlist_cex :
    (qt_hop_once ⟨true, true, [⟨"a", 100, 0, "12.5 kHz"⟩], true, 0, none, true, false⟩
        ⟨true, true, true, true⟩).2.applied = some ⟨"a", 100, 0, "12.5 kHz"⟩ ∧
    (qt_hop_once ⟨true, true, [⟨"b", 200, 0, "12.5 kHz"⟩], true, 0, none, true, false⟩
        ⟨true, true, true, true⟩).2.applied = some ⟨"b", 200, 0, "12.5 kHz"⟩ ∧
    (⟨"a", 100, 0, "12.5 kHz"⟩ : Entry) ≠ ⟨"b", 200, 0, "12.5 kHz"⟩ := by
  refine ⟨rfl, rfl, ?_⟩
  intro h
  have := congrArg Entry.name h
  simp at this

lemma tk_run_latched (snapshot : List Entry) (hs : snapshot ≠ [])
    (res : ℕ → DevResults)
    (hfl : ∀ j, (res j).setFreqOk = true ∧ (res j).setLevelOk = true)
    (running : ℕ → Bool) (hr : ∀ j, running j = true) :
    ∀ n k st, st.rfEnableFailed = true → st.transmitting = false →
      (tk_run snapshot res running n k st).map CycleOut.enableAttempted
          = List.replicate n false ∧
      ∀ o ∈ tk_run snapshot res running n k st, o.applied.isSome = true := by
  intro n
  induction n with
  | zero => intro k st _ _; simp [tk_run]
  | succ n ih =>
      intro k st hrf htr
      have hcyc : tk_cycle snapshot (res k) st
          = ({ index := (st.index + 1) % snapshot.length,
               lastBw := if some (snapshot.getD st.index default).bandwidth != st.lastBw
                 then some (snapshot.getD st.index default).bandwidth else st.lastBw,
               rfEnableFailed := st.rfEnableFailed, transmitting := st.transmitting },
             ⟨some (snapshot.getD st.index default),
              [DevCmd.setFreq (pyInt ((snapshot.getD st.index default).frequency * 1000000)),
               DevCmd.setAmp (snapshot.getD st.index default).level] ++
                (if some (snapshot.getD st.index default).bandwidth != st.lastBw
                  then [DevCmd.setFM ((BANDWIDTHS (snapshot.getD st.index default).bandwidth).getD 6250)]
                  else []) ++ [],
              false, true⟩) := by
        unfold tk_cycle
        rw [(hfl k).1, (hfl k).2, hrf, htr]
        simp
      rw [tk_run, hr k]
      simp only [Bool.not_true, Bool.false_eq_true, if_false, if_neg hs]
      rw [hcyc]
      have hrec := ih (k + 1)
        ⟨(st.index + 1) % snapshot.length,
         if some (snapshot.getD st.index default).bandwidth != st.lastBw
           then some (snapshot.getD st.index default).bandwidth else st.lastBw,
         st.rfEnableFailed, st.transmitting⟩ hrf htr
      constructor
      · simp only [List.map_cons, List.replicate_succ]
        exact congrArg (List.cons false) hrec.1
      · intro o ho
        cases ho with
        | head => rfl
        | tail _ h => exact hrec.2 o h

/-- Claim C3 (amended): in the threaded GUI's hopping worker, one failed
output-enable attempt latches `rf_enable_failed`: the first cycle attempts
the enable and every one of the `n` following cycles attempts no enable
while still applying an entry (frequency and level).  (The Qt GUI has no
such latch; see the counterexample.) -/
theorem tk_enable_failure_latch (snapshot : List Entry) (res : ℕ → DevResults)
    (running : ℕ → Bool) (n : ℕ) (st0 : WorkerSt)
    (hs : snapshot ≠ [])
    (hfl : ∀ j, (res j).setFreqOk = true ∧ (res j).setLevelOk = true)
    (hr : ∀ j, running j = true)
    (hT : st0.transmitting = false) (hR : st0.rfEnableFailed = false)
    (hE : (res 0).enableOk = false) :
    (tk_run snapshot res running (n + 1) 0 st0).map CycleOut.enableAttempted
        = true :: List.replicate n false ∧
    ∀ o ∈ tk_run snapshot res running (n + 1) 0 st0, o.applied.isSome = true := by
  have hcyc : tk_cycle snapshot (res 0) st0
      = ({ index := (st0.index + 1) % snapshot.length,
           lastBw := if some (snapshot.getD st0.index default).bandwidth != st0.lastBw
             then some (snapshot.getD st0.index default).bandwidth else st0.lastBw,
           rfEnableFailed := true, transmitting := st0.transmitting },
         ⟨some (snapshot.getD st0.index default),
          [DevCmd.setFreq (pyInt ((snapshot.getD st0.index default).frequency * 1000000)),
           DevCmd.setAmp (snapshot.getD st0.index default).level] ++
            (if some (snapshot.getD st0.index default).bandwidth != st0.lastBw
              then [DevCmd.setFM ((BANDWIDTHS (snapshot.getD st0.index default).bandwidth).getD 6250)]
              else []) ++ [DevCmd.enableOut],
          true, true⟩) := by
    unfold tk_cycle
    rw [(hfl 0).1, (hfl 0).2, hR, hT, hE]
    simp
  rw [tk_run, hr 0]
  simp only [Bool.not_true, Bool.false_eq_true, if_false, if_neg hs]
  rw [hcyc]
  have hrec := tk_run_latched snapshot hs res hfl running hr n 1
    ⟨(st0.index + 1) % snapshot.length,
     if some (snapshot.getD st0.index default).bandwidth != st0.lastBw
       then some (snapshot.getD st0.index default).bandwidth else st0.lastBw,
     true, st0.transmitting⟩ rfl hT
  constructor
  · simp only [List.map_cons]
    exact congrArg (List.cons true) hrec.1
  · intro o ho
    cases ho with
    | head => rfl
    | tail _ h => exact hrec.2 o h

/-- Claim C3 witness: the latch theorem on a one-entry snapshot with a
persistently failing enable over three cycles: attempts are
`[true, false, false]` and every cycle applies an entry. -/
theorem tk_enable_failure_latch_witness :
    (tk_run [⟨"a", 100, 0, "12.5 kHz"⟩] (fun _ => ⟨true, true, true, false⟩)
        (fun _ => true) 3 0 ⟨0, none, false, false⟩).map CycleOut.enableAttempted
      = true :: List.replicate 2 false ∧
    ∀ o ∈ tk_run [⟨"a", 100, 0, "12.5 kHz"⟩] (fun _ => ⟨true, true, true, false⟩)
        (fun _ => true) 3 0 ⟨0, none, false, false⟩, o.applied.isSome = true :=
  tk_enable_failure_latch [⟨"a", 100, 0, "12.5 kHz"⟩] _ _ 2 ⟨0, none, false, false⟩
    (by decide) (fun _ => ⟨rfl, rfl⟩) (fun _ => rfl) rfl rfl rfl

/-- Claim C3 counterexample: `SMY02QtGUI._hop_once` re-attempts
`enable_output` on the second cycle after it failed on the first
(`transmitting` stays false and there is no failure latch). -/
theorem qt_enable_retry_cex :
    (qt_hop_once ⟨true, true, [⟨"a", 100, 0, "12.5 kHz"⟩], true, 0, none, false, false⟩
        ⟨true, true, true, false⟩).2.enableAttempted = true ∧
    (qt_hop_once
        (qt_hop_once ⟨true, true, [⟨"a", 100, 0, "12.5 kHz"⟩], true, 0, none, false, false⟩
          ⟨true, true, true, false⟩).1
        ⟨true, true, true, false⟩).2.enableAttempted = true :=
  ⟨rfl, rfl⟩

/-- Claim C9: starting a hopping session with an empty playlist is
rejected in both GUIs with the state unchanged, no worker launched /
no timer tick executed, and no device command issued. -/
theorem empty_playlist_start_rejected (g : TkGui) (q : QtGui) (res : DevResults)
    (hg : g.playlist = []) (hq : q.playlist = []) :
    tk_start_hopping g = (g, false) ∧ qt_start_hopping q res = (q, [], false) := by
  constructor
  · unfold tk_start_hopping
    rw [hg]
    simp
  · unfold qt_start_hopping
    rw [hq]
    simp

/-- Claim C9 witness: both start functions evaluated on connected states
with empty playlists. -/
theorem empty_playlist_start_rejected_witness :
    tk_start_hopping ⟨true, [], none, false, 0, false⟩
        = (⟨true, [], none, false, 0, false⟩, false) ∧
    qt_start_hopping ⟨true, true, [], false, 0, none, false, false⟩ ⟨true, true, true, true⟩
        = (⟨true, true, [], false, 0, none, false, false⟩, [], false) :=
  empty_playlist_start_rejected _ _ _ rfl rfl

/-- Claim C10: every embedded controller operation called while
`instrument is None` returns failure with no wire traffic (hence no
exception), and `get_esr` returns `None`. -/
theorem disconnected_ops_fail (st : CtrlState) (esr : ℕ → Option ℤ)
    (resp : Option ℤ) (f a dev : ℚ) (h : st.connected = false) :
    set_frequency st esr f = (false, []) ∧
    set_amplitude st esr a = (false, []) ∧
    enable_output st esr = (false, []) ∧
    disable_output st = (false, []) ∧
    set_modulation_fm st esr dev = (false, st, []) ∧
    set_modulation_am st = (false, st, []) ∧
    get_esr st resp = (none, []) := by
  unfold set_frequency set_amplitude enable_output disable_output
    set_modulation_fm set_modulation_am get_esr
  rw [h]
  simp

/-- Claim C10 witness: the disconnected-state theorem evaluated on a
concrete disconnected state. -/
theorem disconnected_ops_fail_witness :
    set_frequency ⟨false, "SMY02", "", false, none⟩ (fun _ => some 0) 1000000 = (false, []) ∧
    set_amplitude ⟨false, "SMY02", "", false, none⟩ (fun _ => some 0) (-10) = (false, []) ∧
    enable_output ⟨false, "SMY02", "", false, none⟩ (fun _ => some 0) = (false, []) ∧
    disable_output ⟨false, "SMY02", "", false, none⟩ = (false, []) ∧
    set_modulation_fm ⟨false, "SMY02", "", false, none⟩ (fun _ => some 0) 5000
        = (false, ⟨false, "SMY02", "", false, none⟩, []) ∧
    set_modulation_am ⟨false, "SMY02", "", false, none⟩
        = (false, ⟨false, "SMY02", "", false, none⟩, []) ∧
    get_esr ⟨false, "SMY02", "", false, none⟩ (some 0) = (none, []) :=
  disconnected_ops_fail _ _ _ _ _ _ rfl

/-- Claim C4 (amended): on an SMY02 identity `set_modulation_am` always
succeeds, always leaves the mode AM, and always writes `FM:OFF` then
`AM:ON` — regardless of the current mode, so a call in AM mode is not a
protocol-level no-op. -/
theorem am_always_sends (st : CtrlState) (h1 : st.connected = true)
    (h2 : st.isSMY02 = true) :
    set_modulation_am st
      = (true, ⟨st.connected, st.model, st.idn, st.fmInitialized, some "AM"⟩,
         [Wire.write "FM:OFF", Wire.write "AM:ON"]) := by
  unfold set_modulation_am
  rw [h1, h2]
  simp

/-- Claim C4 witness: the theorem evaluated on a state already in AM
mode. -/
theorem am_always_sends_witness :
    set_modulation_am ⟨true, "SMY02", "", true, some "AM"⟩
      = (true, ⟨true, "SMY02", "", true, some "AM"⟩,
         [Wire.write "FM:OFF", Wire.write "AM:ON"]) :=
  am_always_sends _ rfl (by decide)

/-- Claim C4 counterexample: calling `set_modulation_am` while the mode is
already AM writes `FM:OFF` and `AM:ON` — a nonempty command list, so the
call is not a protocol-level no-op. -/
theorem am_noop_cex :
    (set_modulation_am ⟨true, "SMY02", "", true, some "AM"⟩).2.2
        = [Wire.write "FM:OFF", Wire.write "AM:ON"] ∧
    ([Wire.write "FM:OFF", Wire.write "AM:ON"] : List Wire) ≠ [] :=
  ⟨rfl, by decide⟩

/-- Claim C7 (amended): a repeated `set_modulation_fm` on an
already-initialized, already-FM SMY02 state writes no initialization
commands (no tone-source setup, no `FM:ON`, no mode-exit) and sends exactly
the one deviation-update command — unconditionally, whether or not the
deviation changed. -/
theorem fm_repeat_minimal (st : CtrlState) (esr : ℕ → Option ℤ) (dev : ℚ)
    (h1 : st.connected = true) (h2 : st.isSMY02 = true)
    (h3 : st.fmInitialized = true) (h4 : st.modulationMode = some "FM") :
    set_modulation_fm st esr dev
      = (true, st, [Wire.write ("FM " ++ toString (pyInt dev))]) := by
  obtain ⟨c, m, i, fi, mm⟩ := st
  simp only at h1 h2 h3 h4
  subst h1 h3 h4
  unfold set_modulation_fm
  rw [h2]
  simp

/-- Claim C7 witness: the repeated-call theorem evaluated on an
initialized FM state at deviation 5000. -/
theorem fm_repeat_minimal_witness :
    set_modulation_fm ⟨true, "SMY02", "", true, some "FM"⟩ (fun _ => none) 5000
      = (true, ⟨true, "SMY02", "", true, some "FM"⟩,
         [Wire.write ("FM " ++ toString (pyInt 5000))]) :=
  fm_repeat_minimal _ _ _ rfl (by decide) rfl rfl

/-- Claim C7 counterexample: calling `set_modulation_fm` twice with the
SAME deviation still writes the `FM <deviation>` command on the second
call — the code keeps no previous-deviation state, so "only if the
deviation changed" fails. -/
theorem fm_repeat_deviation_cex :
    (set_modulation_fm
        (set_modulation_fm ⟨true, "SMY02", "", false, none⟩ (fun _ => none) 5000).2.1
        (fun _ => none) 5000).2.2
      = [Wire.write ("FM " ++ toString (pyInt (5000 : ℚ)))] ∧
    (set_modulation_fm
        (set_modulation_fm ⟨true, "SMY02", "", false, none⟩ (fun _ => none) 5000).2.1
        (fun _ => none) 5000).2.2 ≠ [] :=
  ⟨rfl, by decide⟩

/-- Claim C1 counterexample: on a non-SMY02 (verified-path) identity, a
timed-out status query makes `set_frequency` and `set_amplitude` return
failure, not optimistic success — the timeout policy is not uniform across
the verified operations. -/
theorem setFrequency_timeout_cex :
    (set_frequency ⟨true, "GEN", "ACME,GEN1,0,1.0", false, none⟩
        (fun _ => none) 1000000).1 = false ∧
    (set_amplitude ⟨true, "GEN", "ACME,GEN1,0,1.0", false, none⟩
        (fun _ => none) (-10)).1 = false :=
  ⟨rfl, rfl⟩

/-- Claim C1 (amended): on a verified-path identity with a timed-out first
status query, `enable_output` and `_try_commands_with_check` return
optimistic success after the first candidate (no further candidate is
tried), while `set_frequency` and `set_amplitude` treat the timeout as
failure. -/
theorem timeout_policy_split (st : CtrlState) (esr : ℕ → Option ℤ) (f a : ℚ)
    (c0 : String) (cs : List String)
    (hc : st.connected = true) (hn : st.isSMY02 = false) (he : esr 0 = none) :
    (set_frequency st esr f).1 = false ∧
    (set_amplitude st esr a).1 = false ∧
    enable_output st esr
        = (true, [Wire.write "*CLS", Wire.write "OUTP ON", Wire.queryESR]) ∧
    try_commands_with_check st esr (c0 :: cs)
        = (true, [Wire.write "*CLS", Wire.write c0, Wire.queryESR]) := by
  unfold set_frequency set_amplitude enable_output try_commands_with_check
  rw [hc, hn]
  refine ⟨by simp [he], by simp [he], ?_, ?_⟩
  · simp [enableLoop, he]
  · simp [tryCommandsLoop, he]

/-- Claim C1 witness: the split-policy theorem evaluated on a generic
identity with an always-timing-out status oracle. -/
theorem timeout_policy_split_witness :
    (set_frequency ⟨true, "GEN", "X", false, none⟩ (fun _ => none) 1000000).1 = false ∧
    (set_amplitude ⟨true, "GEN", "X", false, none⟩ (fun _ => none) (-10)).1 = false ∧
    enable_output ⟨true, "GEN", "X", false, none⟩ (fun _ => none)
        = (true, [Wire.write "*CLS", Wire.write "OUTP ON", Wire.queryESR]) ∧
    try_commands_with_check ⟨true, "GEN", "X", false, none⟩ (fun _ => none)
        ["LFO:STAT ON", "LFO:STATE ON"]
        = (true, [Wire.write "*CLS", Wire.write "LFO:STAT ON", Wire.queryESR]) :=
  timeout_policy_split _ _ 1000000 (-10) "LFO:STAT ON" ["LFO:STATE ON"]
    rfl (by decide) rfl

lemma enableLoop_all_bad (smy : Bool) (esr : ℕ → Option ℤ)
    (h : ∀ j, ∃ v, esr j = some v ∧ v ≠ 0 ∧ v ≠ 32 ∧ v ≠ 53) :
    ∀ cmds n lastEsr,
      (lastEsr = none ∨ ∃ v, lastEsr = some v ∧ v ≠ 32 ∧ v ≠ 53) →
      (enableLoop smy esr cmds n lastEsr).1 = false := by
  intro cmds
  induction cmds with
  | nil =>
      intro n lastEsr hl
      rcases hl with h0 | ⟨v, hv, h32, h53⟩
      · subst h0; rfl
      · subst hv
        simp [enableLoop, h32, h53]
  | cons c cs ih =>
      intro n lastEsr _
      obtain ⟨v, hv, h0, h32, h53⟩ := h n
      unfold enableLoop
      rw [hv]
      simp [h0, h32, h53]
      exact ih (n + 1) (some v) (Or.inr ⟨v, rfl, h32, h53⟩)

lemma tryCommandsLoop_all_bad (esr : ℕ → Option ℤ)
    (h : ∀ j, ∃ v, esr j = some v ∧ v ≠ 0) :
    ∀ cmds n, (tryCommandsLoop esr cmds n).1 = false := by
  intro cmds
  induction cmds with
  | nil => intro n; rfl
  | cons c cs ih =>
      intro n
      obtain ⟨v, hv, h0⟩ := h n
      unfold tryCommandsLoop
      rw [hv]
      simp [h0]
      exact ih (n + 1)

/-- Claim C8: when every status query returns a nonzero code outside the
benign set `{32, 53}` (the only benign codes the source ever accepts, for
any identity), `enable_output` and `_try_commands_with_check` exhaust their
candidates and return failure, never success. -/
theorem exhausted_candidates_rejected (st : CtrlState) (esr : ℕ → Option ℤ)
    (cmds : List String)
    (h : ∀ j, ∃ v, esr j = some v ∧ v ≠ 0 ∧ v ≠ 32 ∧ v ≠ 53) :
    (enable_output st esr).1 = false ∧
    (try_commands_with_check st esr cmds).1 = false := by
  constructor
  · unfold enable_output
    cases hc : st.connected with
    | false => rfl
    | true =>
        simp only [hc, Bool.not_true, Bool.false_eq_true, if_false]
        exact enableLoop_all_bad st.isSMY02 esr h _ 0 none (Or.inl rfl)
  · unfold try_commands_with_check
    cases hc : st.connected with
    | false => rfl
    | true =>
        simp only [hc, Bool.not_true, Bool.false_eq_true, if_false]
        exact tryCommandsLoop_all_bad esr (fun j => by
          obtain ⟨v, hv, h0, _, _⟩ := h j
          exact ⟨v, hv, h0⟩) cmds 0

/-- Claim C8 witness: the exhaustion theorem with every query answering
ESR 7. -/
theorem exhausted_candidates_rejected_witness :
    (enable_output ⟨true, "SMY02", "", false, none⟩ (fun _ => some 7)).1 = false ∧
    (try_commands_with_check ⟨true, "SMY02", "", false, none⟩ (fun _ => some 7)
        ["LFO:STAT ON", "LFO:STATE ON"]).1 = false :=
  exhausted_candidates_rejected _ _ _
    (fun _ => ⟨7, rfl, by decide, by decide, by decide⟩)
